import Mathlib

/-!
Verification of the MCC fingerprint-matching orchestration code
(`mcc_api.py`, `mcc_api2.py`, `mcc_service.py`).

Modelling conventions:
* similarity scores (Python floats) are modelled as rationals `ℚ`;
* Python strings compare lexicographically by code point, so `sorted(...)`
  on file names is modelled by a stable insertion sort over a code-point
  comparison (Python's Timsort is stable; every claim here is independent
  of the tie order anyway);
* the external `MccSdk` engine is a black box: each engine call is recorded
  in an explicit call trace, and the outcome of a search call is an input
  of the model (`EngineSearch`);
* wall-clock timing fields (`tempo_ms`, `tempo_segundos`) and `verbose`
  printing are omitted: no claim mentions them.
-/

namespace Mcc

/-- Stable insertion of `a` into `l`: `a` is placed before the first
element `b` with `le a b`.  Together with `insertionSortB` this models a
stable sort (Python's `list.sort` / `sorted`). -/
def orderedInsertB (le : α → α → Bool) (a : α) : List α → List α
  | [] => [a]
  | b :: l => if le a b then a :: b :: l else b :: orderedInsertB le a l

/-- Stable sort by the Boolean comparison `le`; models Python's stable
`sorted(...)` / `list.sort(...)`. -/
def insertionSortB (le : α → α → Bool) : List α → List α
  | [] => []
  | a :: l => orderedInsertB le a (insertionSortB le l)

/-- Python `enumerate(xs, start=n)`. -/
def pyEnumerate (n : Nat) : List α → List (Nat × α)
  | [] => []
  | a :: l => (n, a) :: pyEnumerate (n + 1) l

/-- Code-point lexicographic `≤` on character lists, i.e. Python's
string comparison. -/
def charListLe : List Char → List Char → Bool
  | [], _ => true
  | _ :: _, [] => false
  | a :: as, b :: bs =>
    if a < b then true
    else if b < a then false
    else charListLe as bs

/-- Python `a <= b` on strings: ordinal (code-point) lexicographic. -/
def pyStrLe (a b : String) : Bool := charListLe a.data b.data

/-- Python `s.lower()` (ASCII case folding, as `Char.toLower`). -/
def pyLower (s : String) : String := String.mk (s.data.map Char.toLower)

/-- Python `l.endswith(s)` on the underlying character lists. -/
def listEndsWith (l s : List Char) : Bool :=
  decide (l.drop (l.length - s.length) = s)

/-- Python `f.lower().endswith('.txt')`: the (case-insensitive) template
extension test used by every directory enumeration in the repository. -/
def lowerEndsWithTxt (f : String) : Bool :=
  listEndsWith (pyLower f).data ".txt".data

theorem mem_orderedInsertB {le : α → α → Bool} {a b : α} {l : List α} :
    b ∈ orderedInsertB le a l ↔ b = a ∨ b ∈ l := by
  induction l with
  | nil => simp [orderedInsertB]
  | cons c t ih =>
    simp only [orderedInsertB]
    by_cases h : le a c = true
    · rw [if_pos h]
      simp [List.mem_cons]
    · rw [if_neg h]
      simp only [List.mem_cons, ih]
      tauto

theorem mem_insertionSortB {le : α → α → Bool} {b : α} {l : List α} :
    b ∈ insertionSortB le l ↔ b ∈ l := by
  induction l with
  | nil => simp [insertionSortB]
  | cons c t ih =>
    simp only [insertionSortB, mem_orderedInsertB, List.mem_cons, ih]

theorem length_orderedInsertB {le : α → α → Bool} (a : α) (l : List α) :
    (orderedInsertB le a l).length = l.length + 1 := by
  induction l with
  | nil => rfl
  | cons c t ih =>
    simp only [orderedInsertB]
    by_cases h : le a c = true
    · rw [if_pos h]
      simp
    · rw [if_neg h]
      simp [ih]

theorem length_insertionSortB {le : α → α → Bool} (l : List α) :
    (insertionSortB le l).length = l.length := by
  induction l with
  | nil => rfl
  | cons c t ih => simp [insertionSortB, length_orderedInsertB, ih]

theorem perm_orderedInsertB {le : α → α → Bool} (a : α) (l : List α) :
    (orderedInsertB le a l).Perm (a :: l) := by
  induction l with
  | nil => exact List.Perm.refl _
  | cons c t ih =>
    simp only [orderedInsertB]
    by_cases h : le a c = true
    · rw [if_pos h]
    · rw [if_neg h]
      exact (ih.cons c).trans (List.Perm.swap a c t)

theorem perm_insertionSortB {le : α → α → Bool} (l : List α) :
    (insertionSortB le l).Perm l := by
  induction l with
  | nil => exact List.Perm.refl _
  | cons c t ih =>
    exact (perm_orderedInsertB c (insertionSortB le t)).trans (ih.cons c)

theorem pairwise_orderedInsertB {le : α → α → Bool}
    (htrans : ∀ a b c, le a b = true → le b c = true → le a c = true)
    (htot : ∀ a b, le a b = true ∨ le b a = true) (a : α) :
    ∀ l : List α, l.Pairwise (fun x y => le x y = true) →
      (orderedInsertB le a l).Pairwise (fun x y => le x y = true) := by
  intro l
  induction l with
  | nil => intro _; simp [orderedInsertB]
  | cons b t ih =>
    intro h
    simp only [orderedInsertB]
    by_cases hab : le a b = true
    · rw [if_pos hab]
      refine List.pairwise_cons.mpr ⟨?_, h⟩
      intro x hx
      rcases List.mem_cons.mp hx with rfl | hxt
      · exact hab
      · exact htrans a b x hab (List.rel_of_pairwise_cons h hxt)
    · have hba : le b a = true := (htot a b).resolve_left hab
      rw [if_neg hab]
      refine List.pairwise_cons.mpr ⟨?_, ih (List.pairwise_cons.mp h).2⟩
      intro y hy
      rcases mem_orderedInsertB.mp hy with rfl | hyt
      · exact hba
      · exact List.rel_of_pairwise_cons h hyt

theorem pairwise_insertionSortB {le : α → α → Bool}
    (htrans : ∀ a b c, le a b = true → le b c = true → le a c = true)
    (htot : ∀ a b, le a b = true ∨ le b a = true) (l : List α) :
    (insertionSortB le l).Pairwise (fun x y => le x y = true) := by
  induction l with
  | nil => simp [insertionSortB]
  | cons c t ih =>
    exact pairwise_orderedInsertB htrans htot c _ ih

theorem pyEnumerate_map_fst (n : Nat) (l : List α) :
    (pyEnumerate n l).map Prod.fst = List.range' n l.length := by
  induction l generalizing n with
  | nil => rfl
  | cons a t ih => simp [pyEnumerate, List.range', ih]

theorem pyEnumerate_map_snd (n : Nat) (l : List α) :
    (pyEnumerate n l).map Prod.snd = l := by
  induction l generalizing n with
  | nil => rfl
  | cons a t ih => simp [pyEnumerate, ih]

theorem pyEnumerate_length (n : Nat) (l : List α) :
    (pyEnumerate n l).length = l.length := by
  induction l generalizing n with
  | nil => rfl
  | cons a t ih => simp [pyEnumerate, ih]

theorem snd_mem_of_mem_pyEnumerate {n : Nat} {l : List α} {p : Nat × α}
    (hp : p ∈ pyEnumerate n l) : p.2 ∈ l := by
  have := List.mem_map_of_mem Prod.snd hp
  rwa [pyEnumerate_map_snd] at this

theorem pairwise_pyEnumerate {R : α → α → Prop} {l : List α} (n : Nat)
    (h : l.Pairwise R) :
    (pyEnumerate n l).Pairwise (fun p q => R p.2 q.2) := by
  induction l generalizing n with
  | nil => simp [pyEnumerate]
  | cons a t ih =>
    rcases List.pairwise_cons.mp h with ⟨ha, ht⟩
    refine List.pairwise_cons.mpr ⟨?_, ih (n + 1) ht⟩
    intro q hq
    exact ha q.2 (snd_mem_of_mem_pyEnumerate hq)

theorem charListLe_total : ∀ l m, charListLe l m = true ∨ charListLe m l = true := by
  intro l
  induction l with
  | nil => intro m; left; rfl
  | cons a as ih =>
    intro m
    cases m with
    | nil => right; rfl
    | cons b bs =>
      simp only [charListLe]
      by_cases hab : a < b
      · left; rw [if_pos hab]
      · by_cases hba : b < a
        · right; rw [if_pos hba]
        · rw [if_neg hab, if_neg hba, if_neg hba, if_neg hab]
          exact ih bs

theorem charListLe_trans :
    ∀ l m n, charListLe l m = true → charListLe m n = true →
      charListLe l n = true := by
  intro l
  induction l with
  | nil => intro m n _ _; rfl
  | cons a as ih =>
    intro m n h1 h2
    cases m with
    | nil => simp [charListLe] at h1
    | cons b bs =>
      cases n with
      | nil => simp [charListLe] at h2
      | cons c cs =>
        simp only [charListLe] at h1 h2 ⊢
        by_cases hab : a < b
        · by_cases hbc : b < c
          · rw [if_pos (lt_trans hab hbc)]
          · by_cases hcb : c < b
            · rw [if_neg hbc, if_pos hcb] at h2
              exact (Bool.false_ne_true h2).elim
            · have hbc' : b = c := le_antisymm (not_lt.mp hcb) (not_lt.mp hbc)
              subst hbc'
              rw [if_pos hab]
        · by_cases hba : b < a
          · rw [if_neg hab, if_pos hba] at h1
            exact (Bool.false_ne_true h1).elim
          · rw [if_neg hab, if_neg hba] at h1
            have hab' : a = b := le_antisymm (not_lt.mp hba) (not_lt.mp hab)
            subst hab'
            by_cases hac : a < c
            · rw [if_pos hac]
            · by_cases hca : c < a
              · rw [if_neg hac, if_pos hca] at h2
                exact (Bool.false_ne_true h2).elim
              · rw [if_neg hac, if_neg hca] at h2 ⊢
                exact ih bs cs h1 h2

theorem pyStrLe_total (a b : String) :
    pyStrLe a b = true ∨ pyStrLe b a = true :=
  charListLe_total a.data b.data

theorem pyStrLe_trans (a b c : String) (h1 : pyStrLe a b = true)
    (h2 : pyStrLe b c = true) : pyStrLe a c = true :=
  charListLe_trans a.data b.data c.data h1 h2

/-- A raw `(identity, score)` pair, one entry of the pair of parallel
sequences `(candidateList, sortedSimilarities)` returned by
`MccSdk.SearchTextTemplateIntoMccIndex`. -/
structure RawCandidate where
  id : Nat
  score : ℚ
deriving DecidableEq, Repr

/-- Python `templates_map.get(candidate_id, default)` on the
ID → file-name dictionary, modelled as an association list. -/
def mapGet (m : List (Nat × String)) (k : Nat) (d : String) : String :=
  match m.find? (fun p => p.1 == k) with
  | some p => p.2
  | none => d

/-- One entry of the `candidatos_validos` list built by the filter loop in
`MccFingerprintMatcher.buscar_similares` (mcc_api.py lines 200-218):
a dict with keys `id`, `arquivo`, `caminho`, `score`. -/
structure CandidatoValido where
  id : Nat
  arquivo : String
  caminho : String
  score : ℚ
deriving DecidableEq, Repr

/-- The `CandidatoSimilar` dataclass of mcc_api.py. -/
structure CandidatoSimilar where
  id : Nat
  arquivo : String
  caminho_completo : String
  score : ℚ
  rank : Nat
deriving DecidableEq, Repr

/-- mcc_api.py lines 200-218: keep the raw candidates with
`score >= score_minimo` (the loop `continue`s when `score < score_minimo`),
resolving each file name via `templates_map.get(candidate_id, 'ID_<id>')`
and joining it to the template folder. -/
def candidatos_validos (templates_map : List (Nat × String))
    (pasta_templates : String) (raw : List RawCandidate)
    (score_minimo : ℚ) : List CandidatoValido :=
  (raw.filter (fun c => !decide (c.score < score_minimo))).map (fun c =>
    let arquivo := mapGet templates_map c.id ("ID_" ++ toString c.id)
    { id := c.id, arquivo := arquivo,
      caminho := pasta_templates ++ "/" ++ arquivo, score := c.score })

/-- mcc_api.py lines 220-232: sort `candidatos_validos` by score descending
(Python's stable `list.sort(key=..., reverse=True)`), take the first
`top_n`, and build `CandidatoSimilar` records with ranks from
`enumerate(..., start=1)`. -/
def resultado_final (templates_map : List (Nat × String))
    (pasta_templates : String) (raw : List RawCandidate)
    (score_minimo : ℚ) (top_n : Nat) : List CandidatoSimilar :=
  let ordenados := insertionSortB (fun a b => decide (b.score ≤ a.score))
    (candidatos_validos templates_map pasta_templates raw score_minimo)
  (pyEnumerate 1 (ordenados.take top_n)).map (fun p =>
    { id := p.2.id, arquivo := p.2.arquivo, caminho_completo := p.2.caminho,
      score := p.2.score, rank := p.1 })

/-- The possible behaviours of the one engine search call
`MccSdk.SearchTextTemplateIntoMccIndex(probe, False)`; the engine is a
black box, so the behaviour is an input of the model. -/
inductive EngineSearch where
  /-- the engine call throws an exception -/
  | raises (msg : String)
  /-- the result is not a 2-tuple -/
  | malformed
  /-- the result is a 2-tuple whose `candidateList` is `None` -/
  | noneResult
  /-- a 2-tuple of parallel identity/score sequences, paired up -/
  | found (raw : List RawCandidate)
deriving DecidableEq

/-- Engine calls issued by the search path, in order. -/
inductive EngCall where
  | load
  | search
  | delete
deriving DecidableEq

/-- Result of a Python call: a returned value or a raised exception. -/
inductive Outcome (α : Type) where
  | ret (a : α)
  | fileNotFoundError (msg : String)
  | valueError (msg : String)
  /-- an exception from an engine call propagating out -/
  | engineError (msg : String)
deriving DecidableEq

/-- `MccFingerprintMatcher.buscar_similares` (mcc_api.py lines 152-248).
`exists_probe` / `exists_indice` model the two `os.path.exists` tests.
After the guards, the index is loaded, and the `try`/`finally` guarantees
`DeleteMccIndex` on every exit of the body; the call trace is returned
alongside the outcome. -/
def buscar_similares (exists_probe exists_indice : Bool)
    (templates_map : List (Nat × String))
    (pasta_templates arquivo_probe arquivo_indice : String)
    (search : EngineSearch) (score_minimo : ℚ) (top_n : Nat) :
    Outcome (List CandidatoSimilar) × List EngCall :=
  if exists_probe = false then
    (.fileNotFoundError ("Arquivo não encontrado: " ++ arquivo_probe), [])
  else if exists_indice = false then
    (.fileNotFoundError ("Índice não encontrado: " ++ arquivo_indice), [])
  else if templates_map.isEmpty then
    (.valueError "Mapeamento vazio! Execute carregar_mapeamento() primeiro",
      [])
  else
    match search with
    | .raises msg => (.engineError msg, [.load, .search, .delete])
    | .malformed => (.ret [], [.load, .search, .delete])
    | .noneResult => (.ret [], [.load, .search, .delete])
    | .found raw =>
      if raw.length = 0 then (.ret [], [.load, .search, .delete])
      else
        (.ret (resultado_final templates_map pasta_templates raw
            score_minimo top_n),
          [.load, .search, .delete])

/-- The directory-listing enumeration shared by
`MccFingerprintMatcher.carregar_mapeamento` (mcc_api.py lines 146-148),
`MccFingerprintMatcher.criar_indice` (lines 84-85) and
`MccMatcherService._carregar_mapeamento` (mcc_service.py lines 31-33):
`sorted([f for f in os.listdir(...) if f.lower().endswith('.txt')])`. -/
def arquivos_txt (listing : List String) : List String :=
  insertionSortB pyStrLe (listing.filter lowerEndsWithTxt)

/-- `MccFingerprintMatcher.carregar_mapeamento` (mcc_api.py lines 138-149)
and `MccMatcherService._carregar_mapeamento` (mcc_service.py lines 31-33):
`{i: arq for i, arq in enumerate(arquivos)}`. -/
def carregar_mapeamento (listing : List String) : List (Nat × String) :=
  pyEnumerate 0 (arquivos_txt listing)

/-- One entry of `candidatos_validos` in
`MccMatcherService.buscar_similares` (mcc_service.py line 89):
a dict with keys `id`, `arquivo`, `score`. -/
structure ServiceCandValido where
  id : Nat
  arquivo : String
  score : ℚ
deriving DecidableEq, Repr

/-- One entry of `candidatos_json` (mcc_service.py line 93). -/
structure ServiceCandJson where
  rank : Nat
  arquivo : String
  score_mcc : ℚ
deriving DecidableEq, Repr

/-- The JSON envelope returned by `MccMatcherService.buscar_similares`
(timing field omitted); `erro` responses always carry
`candidatos: []`. -/
inductive ServiceResp where
  | sucesso (probe_arquivo : String) (total_encontrados : Nat)
      (candidatos : List ServiceCandJson)
  | erro (mensagem : String)
deriving DecidableEq

/-- Whether a service response is an error envelope. -/
def ServiceResp.isErro : ServiceResp → Bool
  | .sucesso _ _ _ => false
  | .erro _ => true

/-- mcc_service.py lines 82-90: the filter loop of the service search
(same filter as mcc_api.py, without the `caminho` field). -/
def candidatos_validos_service (templates_map : List (Nat × String))
    (raw : List RawCandidate) (score_minimo : ℚ) :
    List ServiceCandValido :=
  (raw.filter (fun c => !decide (c.score < score_minimo))).map (fun c =>
    { id := c.id,
      arquivo := mapGet templates_map c.id ("ID_" ++ toString c.id),
      score := c.score })

/-- mcc_service.py lines 92-93: sort by score descending, truncate to
`top_n`, and build the JSON entries with `rank = r + 1` from
`enumerate(candidatos_validos[:top_n])`. -/
def candidatos_json (templates_map : List (Nat × String))
    (raw : List RawCandidate) (score_minimo : ℚ) (top_n : Nat) :
    List ServiceCandJson :=
  let ordenados := insertionSortB (fun a b => decide (b.score ≤ a.score))
    (candidatos_validos_service templates_map raw score_minimo)
  (pyEnumerate 0 (ordenados.take top_n)).map (fun p =>
    { rank := p.1 + 1, arquivo := p.2.arquivo, score_mcc := p.2.score })

/-- `MccMatcherService.buscar_similares` (mcc_service.py lines 59-105).
The body after `LoadMccIndexFromFile` sits in `try`/`except`/`finally`:
any exception — including the tuple-unpack failure on a malformed engine
result — is caught and converted to an `erro` envelope, and
`DeleteMccIndex` runs on every exit of the body.  The unpack-failure
message stands for the text of the Python exception raised by
`candidateList, sortedSimilarities = resultado`. -/
def service_buscar_similares (exists_probe exists_indice : Bool)
    (templates_map : List (Nat × String)) (nome_probe : String)
    (search : EngineSearch) (score_minimo : ℚ) (top_n : Nat) :
    ServiceResp × List EngCall :=
  if exists_probe = false then
    (.erro ("Arquivo não encontrado: " ++ nome_probe), [])
  else if exists_indice = false then
    (.erro "Índice não encontrado. Execute setup primeiro.", [])
  else
    match search with
    | .raises msg => (.erro msg, [.load, .search, .delete])
    | .malformed =>
      (.erro "cannot unpack non-sequence engine result",
        [.load, .search, .delete])
    | .noneResult =>
      (.sucesso nome_probe 0 [], [.load, .search, .delete])
    | .found raw =>
      if raw.length = 0 then
        (.sucesso nome_probe 0 [], [.load, .search, .delete])
      else
        let cv := candidatos_validos_service templates_map raw score_minimo
        (.sucesso nome_probe cv.length
            (candidatos_json templates_map raw score_minimo top_n),
          [.load, .search, .delete])

/-- One entry of the list returned by `buscar_e_comparar`
(mcc_api2.py lines 204-217): a dict with keys `id`, `score`, `arquivo`,
`rank`. -/
structure CandComparado where
  id : Nat
  score : ℚ
  arquivo : String
  rank : Nat
deriving DecidableEq, Repr

/-- The decision statuses of `buscar_com_politicas` (mcc_api2.py). -/
inductive Status where
  | NAO_ENCONTRADO
  | ABAIXO_LIMIAR
  | AMBIGUO
  | MATCH
deriving DecidableEq, Repr

/-- The result dict of `buscar_com_politicas` (mcc_api2.py lines 257-263);
the free-text `mensagem` field is omitted. -/
structure ResultadoPolitica where
  status : Status
  id : Option Nat
  score : Option ℚ
  candidatos : List CandComparado
deriving DecidableEq, Repr

/-- The decision-policy stage of `buscar_com_politicas`
(mcc_api2.py lines 257-298), applied to the candidate list already
obtained from `buscar_e_comparar`:
empty list → `NAO_ENCONTRADO`; `top_score < limiar_match` →
`ABAIXO_LIMIAR` carrying the top score; with a runner-up,
`top_score - segundo_score < limiar_ambiguidade` → `AMBIGUO`;
otherwise `MATCH` carrying the top id and score (the ambiguity test is
guarded by `len(candidatos) > 1` and falls through to `MATCH`). -/
def buscar_com_politicas (candidatos : List CandComparado)
    (limiar_match limiar_ambiguidade : ℚ) : ResultadoPolitica :=
  match candidatos with
  | [] =>
    { status := .NAO_ENCONTRADO, id := none, score := none,
      candidatos := [] }
  | top :: resto =>
    if top.score < limiar_match then
      { status := .ABAIXO_LIMIAR, id := none, score := some top.score,
        candidatos := top :: resto }
    else
      match resto with
      | segundo :: _ =>
        if top.score - segundo.score < limiar_ambiguidade then
          { status := .AMBIGUO, id := none, score := none,
            candidatos := top :: resto }
        else
          { status := .MATCH, id := some top.id, score := some top.score,
            candidatos := top :: resto }
      | [] =>
        { status := .MATCH, id := some top.id, score := some top.score,
          candidatos := top :: resto }

/-- Engine calls issued by `criar_indice`, in order. -/
inductive BuildCall where
  | create
  | add (template_id : Nat) (arquivo : String)
  | save
  | delete
deriving DecidableEq

/-- The statistics dict returned by `MccFingerprintMatcher.criar_indice`
(mcc_api.py lines 129-135; timing field omitted). -/
structure BuildStats where
  total : Nat
  sucessos : Nat
  erros : Nat
  templates_map : List (Nat × String)
deriving DecidableEq

/-- The value of the `sucessos` counter at the end of the add loop of
`criar_indice` (mcc_api.py lines 90-111): the number of enumerated
template files whose engine add succeeded. -/
def criar_indice_sucessos (listing : List String)
    (addOk : String → Bool) : Nat :=
  ((pyEnumerate 0 (arquivos_txt listing)).filter
    (fun p => addOk p.2)).length

/-- `MccFingerprintMatcher.criar_indice` (mcc_api.py lines 64-135).
`addOk f` models whether `AddTextTemplateToMccIndex` succeeds on file `f`
(a per-file failure is caught by the loop's `try`/`except` and recorded).
`saveRaises` models `SaveMccIndexToFile` throwing.  The index is saved
only when `sucessos > 0`; `DeleteMccIndex` follows in straight-line code,
with no `try`/`finally`, so a raising save skips it. -/
def criar_indice (listing : List String) (addOk : String → Bool)
    (saveRaises : Bool) : Outcome BuildStats × List BuildCall :=
  let arquivos := arquivos_txt listing
  let adds : List BuildCall :=
    (pyEnumerate 0 arquivos).map (fun p => .add p.1 p.2)
  let sucessos_map := (pyEnumerate 0 arquivos).filter (fun p => addOk p.2)
  let sucessos := criar_indice_sucessos listing addOk
  let erros :=
    ((pyEnumerate 0 arquivos).filter (fun p => !addOk p.2)).length
  let stats : BuildStats :=
    { total := arquivos.length, sucessos := sucessos, erros := erros,
      templates_map := sucessos_map }
  if 0 < sucessos then
    if saveRaises then
      (.engineError "SaveMccIndexToFile failed",
        [BuildCall.create] ++ adds ++ [.save])
    else
      (.ret stats, [BuildCall.create] ++ adds ++ [.save, .delete])
  else
    (.ret stats, [BuildCall.create] ++ adds ++ [.delete])

theorem sortedByScore_pairwise {α : Type} (f : α → ℚ) (l : List α) :
    (insertionSortB (fun a b => decide (f b ≤ f a)) l).Pairwise
      (fun a b => f b ≤ f a) := by
  have htrans : ∀ a b c : α, decide (f b ≤ f a) = true →
      decide (f c ≤ f b) = true → decide (f c ≤ f a) = true := by
    intro a b c hab hbc
    exact decide_eq_true (le_trans (of_decide_eq_true hbc)
      (of_decide_eq_true hab))
  have htot : ∀ a b : α,
      decide (f b ≤ f a) = true ∨ decide (f a ≤ f b) = true := by
    intro a b
    rcases le_total (f b) (f a) with h | h
    · exact Or.inl (decide_eq_true h)
    · exact Or.inr (decide_eq_true h)
  exact (pairwise_insertionSortB htrans htot l).imp
    (fun h => of_decide_eq_true h)

theorem mem_sortTake {α : Type} {f : α → ℚ} {l : List α} {n : Nat} {a : α}
    (h : a ∈ (insertionSortB (fun a b => decide (f b ≤ f a)) l).take n) :
    a ∈ l :=
  mem_insertionSortB.mp (List.mem_of_mem_take h)

theorem pyEnumerate_map_fst_add_one (n : Nat) (l : List α) :
    (pyEnumerate n l).map (fun p => p.1 + 1) =
      List.range' (n + 1) l.length := by
  induction l generalizing n with
  | nil => rfl
  | cons a t ih => simp [pyEnumerate, List.range', ih]

theorem score_ge_of_mem_candidatos_validos
    {templates_map : List (Nat × String)} {pasta_templates : String}
    {raw : List RawCandidate} {score_minimo : ℚ} {c : CandidatoValido}
    (hc : c ∈ candidatos_validos templates_map pasta_templates raw
      score_minimo) :
    score_minimo ≤ c.score := by
  simp only [candidatos_validos, List.mem_map, List.mem_filter] at hc
  obtain ⟨r, ⟨-, hf⟩, rfl⟩ := hc
  simp only [Bool.not_eq_eq_eq_not, Bool.not_true,
    decide_eq_false_iff_not, not_lt] at hf
  exact hf

theorem score_ge_of_mem_candidatos_validos_service
    {templates_map : List (Nat × String)} {raw : List RawCandidate}
    {score_minimo : ℚ} {c : ServiceCandValido}
    (hc : c ∈ candidatos_validos_service templates_map raw score_minimo) :
    score_minimo ≤ c.score := by
  simp only [candidatos_validos_service, List.mem_map,
    List.mem_filter] at hc
  obtain ⟨r, ⟨-, hf⟩, rfl⟩ := hc
  simp only [Bool.not_eq_eq_eq_not, Bool.not_true,
    decide_eq_false_iff_not, not_lt] at hf
  exact hf

/-- C2: the rank/filter step drops exactly the candidates whose score is
strictly below `score_minimo`: every surviving candidate — in the api's
`candidatos_validos` and its final ranked output, and in the service's
`candidatos_validos` and `candidatos_json` — has score `≥ score_minimo`,
and every raw candidate with score `≥ score_minimo` (equality included)
is retained by the filter. -/
theorem rank_filter_min_score (templates_map : List (Nat × String))
    (pasta_templates : String) (raw : List RawCandidate)
    (score_minimo : ℚ) :
    (∀ c ∈ candidatos_validos templates_map pasta_templates raw
        score_minimo, score_minimo ≤ c.score) ∧
    (∀ c ∈ candidatos_validos_service templates_map raw score_minimo,
      score_minimo ≤ c.score) ∧
    (∀ r ∈ raw, score_minimo ≤ r.score →
      ∃ c ∈ candidatos_validos templates_map pasta_templates raw
        score_minimo, c.id = r.id ∧ c.score = r.score) ∧
    (∀ top_n, ∀ c ∈ resultado_final templates_map pasta_templates raw
        score_minimo top_n, score_minimo ≤ c.score) ∧
    (∀ top_n, ∀ c ∈ candidatos_json templates_map raw score_minimo top_n,
      score_minimo ≤ c.score_mcc) := by
  refine ⟨?_, ?_, ?_, ?_, ?_⟩
  · intro c hc
    exact score_ge_of_mem_candidatos_validos hc
  · intro c hc
    exact score_ge_of_mem_candidatos_validos_service hc
  · intro r hr hsc
    refine ⟨_, List.mem_map_of_mem _ (List.mem_filter.mpr ⟨hr, ?_⟩),
      rfl, rfl⟩
    simp only [Bool.not_eq_eq_eq_not, Bool.not_true,
      decide_eq_false_iff_not]
    exact not_lt.mpr hsc
  · intro top_n c hc
    simp only [resultado_final, List.mem_map] at hc
    obtain ⟨p, hp, rfl⟩ := hc
    exact score_ge_of_mem_candidatos_validos
      (mem_sortTake (snd_mem_of_mem_pyEnumerate hp))
  · intro top_n c hc
    simp only [candidatos_json, List.mem_map] at hc
    obtain ⟨p, hp, rfl⟩ := hc
    exact score_ge_of_mem_candidatos_validos_service
      (mem_sortTake (snd_mem_of_mem_pyEnumerate hp))

/-- C2 witness: concrete instance — with `score_minimo = 1`, the ranked
output contains the candidate scored 5, whose score is indeed `≥ 1`. -/
theorem rank_filter_min_score_witness :
    (1 : ℚ) ≤
      (CandidatoSimilar.mk 0 "a.txt" "g/a.txt" 5 1).score :=
  (rank_filter_min_score [(0, "a.txt")] "g" [⟨0, 5⟩] 1).2.2.2.1 5
    ⟨0, "a.txt", "g/a.txt", 5, 1⟩ (by decide)

/-- C4: the output of filter-and-rank is sorted non-increasing by score,
both for the api's `resultado_final` and the service's
`candidatos_json`. -/
theorem rank_sorted_desc (templates_map : List (Nat × String))
    (pasta_templates : String) (raw : List RawCandidate)
    (score_minimo : ℚ) (top_n : Nat) :
    (resultado_final templates_map pasta_templates raw score_minimo
      top_n).Pairwise (fun a b => b.score ≤ a.score) ∧
    (candidatos_json templates_map raw score_minimo
      top_n).Pairwise (fun a b => b.score_mcc ≤ a.score_mcc) := by
  constructor
  · simp only [resultado_final]
    rw [List.pairwise_map]
    exact pairwise_pyEnumerate 1
      (List.Pairwise.sublist (List.take_sublist _ _)
        (sortedByScore_pairwise (fun c : CandidatoValido => c.score) _))
  · simp only [candidatos_json]
    rw [List.pairwise_map]
    exact pairwise_pyEnumerate 0
      (List.Pairwise.sublist (List.take_sublist _ _)
        (sortedByScore_pairwise (fun c : ServiceCandValido => c.score) _))

/-- C5: filter-and-rank returns at most `top_n` items, returns all
surviving candidates when fewer than `top_n` survive (as a permutation —
never padding, never erroring), and the returned items carry ranks
`1..k` in the truncated, sorted order; likewise for the service. -/
theorem rank_truncation (templates_map : List (Nat × String))
    (pasta_templates : String) (raw : List RawCandidate)
    (score_minimo : ℚ) (top_n : Nat) :
    ((resultado_final templates_map pasta_templates raw score_minimo
        top_n).length ≤ top_n) ∧
    ((resultado_final templates_map pasta_templates raw score_minimo
        top_n).map (fun c => c.rank) =
      List.range' 1 (resultado_final templates_map pasta_templates raw
        score_minimo top_n).length) ∧
    ((candidatos_validos templates_map pasta_templates raw
        score_minimo).length ≤ top_n →
      ((resultado_final templates_map pasta_templates raw score_minimo
          top_n).map (fun c =>
        CandidatoValido.mk c.id c.arquivo c.caminho_completo
          c.score)).Perm
        (candidatos_validos templates_map pasta_templates raw
          score_minimo)) ∧
    ((candidatos_json templates_map raw score_minimo top_n).length ≤
      top_n) ∧
    ((candidatos_json templates_map raw score_minimo top_n).map
        (fun c => c.rank) =
      List.range' 1 (candidatos_json templates_map raw score_minimo
        top_n).length) := by
  refine ⟨?_, ?_, ?_, ?_, ?_⟩
  · simp only [resultado_final, List.length_map, pyEnumerate_length,
      List.length_take]
    exact inf_le_left
  · simp only [resultado_final, List.length_map, pyEnumerate_length,
      List.map_map]
    rw [show ((fun c : CandidatoSimilar => c.rank) ∘ fun p =>
        CandidatoSimilar.mk p.2.id p.2.arquivo p.2.caminho p.2.score
          p.1) = fun p : Nat × CandidatoValido => p.1 from
      funext (fun p => rfl)]
    exact pyEnumerate_map_fst 1 _
  · intro hle
    simp only [resultado_final, List.map_map]
    rw [List.take_of_length_le (by rw [length_insertionSortB]; exact hle)]
    rw [show ((fun c : CandidatoSimilar =>
        CandidatoValido.mk c.id c.arquivo c.caminho_completo c.score) ∘
        fun p => CandidatoSimilar.mk p.2.id p.2.arquivo p.2.caminho
          p.2.score p.1) =
        fun p : Nat × CandidatoValido => p.2 from funext (fun p => rfl)]
    rw [show (fun p : Nat × CandidatoValido => p.2) = Prod.snd from rfl]
    rw [pyEnumerate_map_snd]
    exact perm_insertionSortB _
  · simp only [candidatos_json, List.length_map, pyEnumerate_length,
      List.length_take]
    exact inf_le_left
  · simp only [candidatos_json, List.length_map, pyEnumerate_length,
      List.map_map]
    rw [show ((fun c : ServiceCandJson => c.rank) ∘ fun p =>
        ServiceCandJson.mk (p.1 + 1) p.2.arquivo p.2.score) =
        fun p : Nat × ServiceCandValido => p.1 + 1 from
      funext (fun p => rfl)]
    exact pyEnumerate_map_fst_add_one 0 _

/-- C5 witness: with one surviving candidate and `top_n = 5`, the ranked
output has the same length as the surviving list. -/
theorem rank_truncation_witness :
    ((resultado_final [(0, "a.txt")] "g" [⟨0, 5⟩] 1 5).map (fun c =>
      CandidatoValido.mk c.id c.arquivo c.caminho_completo
        c.score)).Perm (candidatos_validos [(0, "a.txt")] "g" [⟨0, 5⟩] 1) :=
  (rank_truncation [(0, "a.txt")] "g" [⟨0, 5⟩] 1 5).2.2.1 (by decide)

/-- C1: the decision policy of `buscar_com_politicas`, applied to a
candidate list already sorted non-increasing by score: empty list →
`NAO_ENCONTRADO`; else top score `< limiar_match` → `ABAIXO_LIMIAR`
carrying the top score; else, when a runner-up exists and
`top - segundo < limiar_ambiguidade`, → `AMBIGUO` (the check is skipped
with a single candidate); else → `MATCH` carrying the top identity and
score.  The equalities on the single returned value witness that the
three stages are evaluated strictly in this order and each stage is
terminal once triggered. -/
theorem decision_policy_three_tier (candidatos : List CandComparado)
    (limiar_match limiar_ambiguidade : ℚ)
    (hsorted : candidatos.Pairwise (fun a b => b.score ≤ a.score)) :
    (candidatos = [] →
      buscar_com_politicas candidatos limiar_match limiar_ambiguidade =
        ⟨.NAO_ENCONTRADO, none, none, []⟩) ∧
    (∀ top resto, candidatos = top :: resto →
      (top.score < limiar_match →
        buscar_com_politicas candidatos limiar_match limiar_ambiguidade =
          ⟨.ABAIXO_LIMIAR, none, some top.score, candidatos⟩) ∧
      (¬ top.score < limiar_match → resto = [] →
        buscar_com_politicas candidatos limiar_match limiar_ambiguidade =
          ⟨.MATCH, some top.id, some top.score, candidatos⟩) ∧
      (¬ top.score < limiar_match →
        ∀ segundo resto2, resto = segundo :: resto2 →
          (top.score - segundo.score < limiar_ambiguidade →
            buscar_com_politicas candidatos limiar_match
                limiar_ambiguidade =
              ⟨.AMBIGUO, none, none, candidatos⟩) ∧
          (¬ top.score - segundo.score < limiar_ambiguidade →
            buscar_com_politicas candidatos limiar_match
                limiar_ambiguidade =
              ⟨.MATCH, some top.id, some top.score, candidatos⟩))) := by
  refine ⟨?_, ?_⟩
  · rintro rfl
    rfl
  · rintro top resto rfl
    refine ⟨?_, ?_, ?_⟩
    · intro hlt
      simp only [buscar_com_politicas]
      rw [if_pos hlt]
    · rintro hge rfl
      simp only [buscar_com_politicas]
      rw [if_neg hge]
    · rintro hge segundo resto2 rfl
      refine ⟨?_, ?_⟩
      · intro hamb
        simp only [buscar_com_politicas]
        rw [if_neg hge, if_pos hamb]
      · intro hnamb
        simp only [buscar_com_politicas]
        rw [if_neg hge, if_neg hnamb]

/-- C1 witness: top score 9 ≥ threshold 8 and gap 9 − 5 ≥ margin 1
yield `MATCH` with the top candidate's identity and score. -/
theorem decision_policy_three_tier_witness :
    buscar_com_politicas [⟨0, 9, "a", 1⟩, ⟨1, 5, "b", 2⟩] 8 1 =
      ⟨.MATCH, some 0, some 9, [⟨0, 9, "a", 1⟩, ⟨1, 5, "b", 2⟩]⟩ := by
  have h := decision_policy_three_tier
    [⟨0, 9, "a", 1⟩, ⟨1, 5, "b", 2⟩] 8 1 (by decide)
  exact ((h.2 ⟨0, 9, "a", 1⟩ [⟨1, 5, "b", 2⟩] rfl).2.2 (by decide)
    ⟨1, 5, "b", 2⟩ [] rfl).2 (by norm_num)

/-- C3: once the guards pass (probe file and index file exist, mapping
nonempty), the search issues exactly one `DeleteMccIndex` call whatever
the engine search does — normal result, empty or malformed result, or a
raised exception — in both `MccFingerprintMatcher.buscar_similares` and
`MccMatcherService.buscar_similares`. -/
theorem search_release_exactly_once (templates_map : List (Nat × String))
    (pasta_templates arquivo_probe arquivo_indice nome_probe : String)
    (search : EngineSearch) (score_minimo : ℚ) (top_n : Nat)
    (hmap : templates_map.isEmpty = false) :
    ((buscar_similares true true templates_map pasta_templates
        arquivo_probe arquivo_indice search score_minimo
        top_n).2.count .delete = 1) ∧
    ((service_buscar_similares true true templates_map nome_probe search
        score_minimo top_n).2.count .delete = 1) := by
  constructor
  · cases search with
    | raises msg =>
      simp only [buscar_similares, hmap, Bool.true_eq_false,
        Bool.false_eq_true, if_false]
      rfl
    | malformed =>
      simp only [buscar_similares, hmap, Bool.true_eq_false,
        Bool.false_eq_true, if_false]
      rfl
    | noneResult =>
      simp only [buscar_similares, hmap, Bool.true_eq_false,
        Bool.false_eq_true, if_false]
      rfl
    | found raw =>
      simp only [buscar_similares, hmap, Bool.true_eq_false,
        Bool.false_eq_true, if_false]
      by_cases h : raw.length = 0
      · rw [if_pos h]
        rfl
      · rw [if_neg h]
        rfl
  · cases search with
    | raises msg =>
      simp only [service_buscar_similares, Bool.true_eq_false, if_false]
      rfl
    | malformed =>
      simp only [service_buscar_similares, Bool.true_eq_false, if_false]
      rfl
    | noneResult =>
      simp only [service_buscar_similares, Bool.true_eq_false, if_false]
      rfl
    | found raw =>
      simp only [service_buscar_similares, Bool.true_eq_false, if_false]
      by_cases h : raw.length = 0
      · rw [if_pos h]
        rfl
      · rw [if_neg h]
        rfl

/-- C3 witness: a simulated engine failure during the search still
produces exactly one release call in both implementations. -/
theorem search_release_exactly_once_witness :
    ((buscar_similares true true [(0, "a.txt")] "gal" "p" "idx"
        (.raises "boom") 1 5).2.count .delete = 1) ∧
    ((service_buscar_similares true true [(0, "a.txt")] "p"
        (.raises "boom") 1 5).2.count .delete = 1) :=
  search_release_exactly_once [(0, "a.txt")] "gal" "p" "idx" "p"
    (.raises "boom") 1 5 (by decide)

/-- C6 counterexample: the enumeration order is Python `sorted`, i.e.
case-SENSITIVE code-point order.  Case-insensitively `a.txt` strictly
precedes `B.txt`, yet the code assigns identity 0 to `B.txt`; and
`a.txt` / `A.txt`, equal under any case-insensitive comparison (so a
stable enumeration honouring that order would keep `a.txt` first),
are ordered strictly with `A.txt` first. -/
theorem registry_order_not_case_insensitive :
    carregar_mapeamento ["a.txt", "B.txt"] =
      [(0, "B.txt"), (1, "a.txt")] ∧
    pyStrLe (pyLower "a.txt") (pyLower "B.txt") = true ∧
    pyStrLe (pyLower "B.txt") (pyLower "a.txt") = false ∧
    carregar_mapeamento ["a.txt", "A.txt"] =
      [(0, "A.txt"), (1, "a.txt")] ∧
    pyLower "a.txt" = pyLower "A.txt" := by decide

/-- C6 amended: the Registry assigns identities `0..n-1` to exactly the
files whose name ends in the template extension compared
case-insensitively, in the case-SENSITIVE (ordinal, code-point)
lexicographic order of the file names. -/
theorem registry_codepoint_order (listing : List String) :
    ((carregar_mapeamento listing).map Prod.fst =
      List.range' 0 (listing.filter lowerEndsWithTxt).length) ∧
    (((carregar_mapeamento listing).map Prod.snd).Pairwise
      (fun a b => pyStrLe a b = true)) ∧
    (((carregar_mapeamento listing).map Prod.snd).Perm
      (listing.filter lowerEndsWithTxt)) := by
  refine ⟨?_, ?_, ?_⟩
  · rw [carregar_mapeamento, pyEnumerate_map_fst, arquivos_txt,
      length_insertionSortB]
  · rw [carregar_mapeamento, pyEnumerate_map_snd, arquivos_txt]
    exact pairwise_insertionSortB pyStrLe_trans pyStrLe_total _
  · rw [carregar_mapeamento, pyEnumerate_map_snd, arquivos_txt]
    exact perm_insertionSortB _

/-- C7 counterexample: in `MccMatcherService.buscar_similares` a
malformed engine result is NOT turned into an empty success — the
tuple-unpack failure is caught by the `except` clause and returned as an
error envelope (`status: 'erro'`). -/
theorem malformed_service_erro_counterexample :
    (service_buscar_similares true true [(0, "a.txt")] "p.txt" .malformed
      1 5).1 = .erro "cannot unpack non-sequence engine result" ∧
    ((service_buscar_similares true true [(0, "a.txt")] "p.txt" .malformed
      1 5).1.isErro = true) := by decide

/-- C7 amended: a malformed engine result yields an empty candidate list
(`return []`) in `MccFingerprintMatcher.buscar_similares`, but in
`MccMatcherService.buscar_similares` the unpack failure is caught and
surfaced as a structured `erro` envelope — an error outcome, not an
empty success. -/
theorem malformed_result_behavior (templates_map : List (Nat × String))
    (pasta_templates arquivo_probe arquivo_indice nome_probe : String)
    (score_minimo : ℚ) (top_n : Nat)
    (hmap : templates_map.isEmpty = false) :
    ((buscar_similares true true templates_map pasta_templates
        arquivo_probe arquivo_indice .malformed score_minimo top_n).1 =
      .ret []) ∧
    ((service_buscar_similares true true templates_map nome_probe
        .malformed score_minimo top_n).1.isErro = true) := by
  constructor
  · simp only [buscar_similares, hmap, Bool.true_eq_false,
      Bool.false_eq_true, if_false]
  · rfl

/-- C7 witness for the amended claim, at a concrete nonempty mapping. -/
theorem malformed_result_behavior_witness :
    ((buscar_similares true true [(0, "a.txt")] "gal" "p" "idx"
        .malformed 1 5).1 = .ret []) ∧
    ((service_buscar_similares true true [(0, "a.txt")] "p" .malformed
        1 5).1.isErro = true) :=
  malformed_result_behavior [(0, "a.txt")] "gal" "p" "idx" "p" 1 5
    (by decide)

/-- C8 counterexample: one file, its add succeeds, and
`SaveMccIndexToFile` raises: the exception propagates and
`DeleteMccIndex` is never called — the release is NOT guaranteed on the
persist-failure path. -/
theorem criar_indice_save_raises_skips_release :
    criar_indice ["a.txt"] (fun _ => true) true =
      (.engineError "SaveMccIndexToFile failed",
        [.create, .add 0 "a.txt", .save]) ∧
    (criar_indice ["a.txt"] (fun _ => true) true).2.count
      BuildCall.delete = 0 := by decide

/-- C8 amended: the built index is persisted (save called) iff at least
one file was added successfully; per-file add failures are caught and
never skip the release; the in-memory index is released exactly once
whenever the save step does not raise (including the zero-success path,
where no save is attempted), but when the save raises, the release is
skipped entirely. -/
theorem criar_indice_persist_and_release (listing : List String)
    (addOk : String → Bool) (saveRaises : Bool) :
    (BuildCall.save ∈ (criar_indice listing addOk saveRaises).2 ↔
      0 < criar_indice_sucessos listing addOk) ∧
    (saveRaises = false →
      (criar_indice listing addOk saveRaises).2.count
        BuildCall.delete = 1) ∧
    (criar_indice_sucessos listing addOk = 0 →
      (criar_indice listing addOk saveRaises).2.count
        BuildCall.delete = 1) ∧
    (0 < criar_indice_sucessos listing addOk → saveRaises = true →
      (criar_indice listing addOk saveRaises).2.count
        BuildCall.delete = 0) := by
  have hadds_save : BuildCall.save ∉
      (pyEnumerate 0 (arquivos_txt listing)).map
        (fun p => BuildCall.add p.1 p.2) := by
    simp
  have hadds_del : ((pyEnumerate 0 (arquivos_txt listing)).map
      (fun p => BuildCall.add p.1 p.2)).count BuildCall.delete = 0 :=
    List.count_eq_zero.mpr (by simp)
  by_cases hs : 0 < criar_indice_sucessos listing addOk
  · cases saveRaises with
    | true =>
      refine ⟨?_, ?_, ?_, ?_⟩
      · simp only [criar_indice]
        rw [if_pos hs, if_pos trivial]
        exact iff_of_true (by simp) hs
      · intro h
        exact absurd h (by simp)
      · intro h
        exact absurd h (by omega)
      · intro _ _
        simp only [criar_indice]
        rw [if_pos hs, if_pos trivial]
        simp only [List.count_append, hadds_del]
        rfl
    | false =>
      refine ⟨?_, ?_, ?_, ?_⟩
      · simp only [criar_indice]
        rw [if_pos hs, if_neg Bool.false_ne_true]
        exact iff_of_true (by simp) hs
      · intro _
        simp only [criar_indice]
        rw [if_pos hs, if_neg Bool.false_ne_true]
        simp only [List.count_append, hadds_del]
        rfl
      · intro h
        exact absurd h (by omega)
      · intro _ h
        exact absurd h (by simp)
  · refine ⟨?_, ?_, ?_, ?_⟩
    · simp only [criar_indice]
      rw [if_neg hs]
      refine iff_of_false ?_ hs
      intro hmem
      rcases List.mem_append.mp hmem with h1 | h2
      · rcases List.mem_cons.mp h1 with h | h
        · exact BuildCall.noConfusion h
        · exact hadds_save h
      · rcases List.mem_cons.mp h2 with h | h
        · exact BuildCall.noConfusion h
        · exact List.not_mem_nil _ h
    · intro _
      simp only [criar_indice]
      rw [if_neg hs]
      simp only [List.count_append, hadds_del]
      rfl
    · intro _
      simp only [criar_indice]
      rw [if_neg hs]
      simp only [List.count_append, hadds_del]
      rfl
    · intro h
      exact absurd h hs

/-- C8 witness for the amended claim: successful build (save does not
raise) releases the index exactly once. -/
theorem criar_indice_persist_and_release_witness :
    (criar_indice ["a.txt"] (fun _ => true) false).2.count
      BuildCall.delete = 1 :=
  (criar_indice_persist_and_release ["a.txt"] (fun _ => true)
    false).2.1 rfl

/-- C9: when probe and index files exist but the in-memory template
mapping is empty, `buscar_similares` raises
`ValueError('Mapeamento vazio! ...')` with an empty engine-call trace:
the error precedes any engine call. -/
theorem empty_mapping_value_error (pasta_templates arquivo_probe
    arquivo_indice : String) (search : EngineSearch)
    (score_minimo : ℚ) (top_n : Nat) :
    buscar_similares true true [] pasta_templates arquivo_probe
      arquivo_indice search score_minimo top_n =
      (.valueError
        "Mapeamento vazio! Execute carregar_mapeamento() primeiro",
        []) := rfl

end Mcc
